import Mathlib

/-!
Shallow embedding of `reproducibility_project/src/engines/mcccs/project.py`.

The file models the MCCCS engine workflow module of the reproducibility
study: a per-job workspace filesystem (a partial map from file names to
character-list contents), the job's persisted signac document, the
readiness and stage-completion predicates, the replicate counters, and
the four stage runners.  The external simulation binary is modelled by an
`EngineOutput` record holding the contents of the six files it writes
into the working directory.  Python real numbers are modelled as
rationals; a fallible Python operation (one that can raise) is modelled
as an `Option`- or `Except`-valued function.
-/

/-- Python substring containment `needle in hay`, on character lists. -/
def containsTok (needle hay : List Char) : Bool := decide (needle <:+: hay)

/-- A workspace filesystem: file name to contents, `none` when absent. -/
def FS := String → Option (List Char)

/-- Write (create or overwrite) a file. -/
def FS.write (fs : FS) (name : String) (c : List Char) : FS :=
  Function.update fs name (some c)

/-- Remove a file. -/
def FS.erase (fs : FS) (name : String) : FS :=
  Function.update fs name none

/-- `shutil.move src dst`: fails (raises) when `src` is absent. -/
def moveFile (fs : FS) (src dst : String) : Option FS :=
  match fs src with
  | some c => some ((fs.erase src).write dst c)
  | none => none

/-- `shutil.copy src dst`: fails (raises) when `src` is absent. -/
def copyFile (fs : FS) (src dst : String) : Option FS :=
  match fs src with
  | some c => some (fs.write dst c)
  | none => none

/-- The immutable signac state point of a job (`job.sp`). -/
structure StatePoint where
  engine : String
  molecule : String
  ensemble : String
  forcefield_name : String
  replica : Int
  N_liquid : Int
  box_L_liq : ℚ
  temperature : ℚ
  pressure : ℚ

/-- The persisted signac job document (`job.doc`); every field starts absent. -/
structure JobDoc where
  files_ready : Option Bool := none
  equil_replicates_done : Option Int := none
  num_prod_replicates : Option Int := none
  prod_replicates_done : Option Int := none

/-- A signac job: id, state point, document, and workspace filesystem. -/
structure Job where
  id : String
  sp : StatePoint
  doc : JobDoc
  fs : FS

/-- `job.isfile name`. -/
def Job.isfile (job : Job) (name : String) : Bool := (job.fs name).isSome

/-- The four stage names of the `fort.4` template files. -/
def file_names : List String := ["melt", "cool", "equil", "prod"]

/-- The five keyword tokens scanned for by `files_ready` (project.py line 117). -/
def ready_keywords : List String :=
  ["NCHAIN", "LENGTH", "TEMPERATURE", "PRESSURE", "VARIABLES"]

/-- Contents of the template file `fort.4.<name>` (empty list when absent). -/
def fort_file_content (job : Job) (name : String) : List Char :=
  (job.fs ("fort.4." ++ name)).getD []

/-- The counter `c` accumulated by the nested loops of `files_ready`:
the number of (present template file, keyword) pairs in which the keyword
occurs in the file.  A missing template file is skipped (`continue`). -/
def keyword_count (job : Job) : Nat :=
  (file_names.map (fun name =>
    if (job.fs ("fort.4." ++ name)).isSome then
      ready_keywords.countP (fun kw => containsTok kw.data (fort_file_content job name))
    else 0)).sum

/-- `files_ready(job)` (project.py lines 112-131).  The source sets
`job.doc.files_ready = False`, counts keyword occurrences over the
present template files, sets the field to `True` exactly when the count
is zero, and returns the field; the net effect is to store and return
`keyword_count job = 0`. -/
def files_ready (job : Job) : Job × Bool :=
  let ready := keyword_count job == 0
  ({ job with doc := { job.doc with files_ready := some ready } }, ready)

/-- `has_fort_files(job)`: all four template files exist. -/
def has_fort_files (job : Job) : Bool :=
  job.isfile "fort.4.melt" && job.isfile "fort.4.cool" &&
  job.isfile "fort.4.equil" && job.isfile "fort.4.prod"

/-- `has_restart_file(job)`: the canonical restart file exists. -/
def has_restart_file (job : Job) : Bool := job.isfile "fort.77"

/-- `has_topmon(job)`. -/
def has_topmon (job : Job) : Bool := job.isfile "topmon.inp"

/-- Shared body of the stage-completion predicates: read `run.<step>` and
test for the literal marker; when the file is absent the Python function
falls through and returns `None`, modelled as `none`. -/
def run_log_check (job : Job) (step : String) : Option Bool :=
  match job.fs ("run." ++ step) with
  | some content => some (containsTok "Program ended".data content)
  | none => none

/-- `melt_finished(job)` (project.py lines 185-196). -/
def melt_finished (job : Job) : Option Bool := run_log_check job "melt"

/-- `cool_finished(job)` (project.py lines 198-208). -/
def cool_finished (job : Job) : Option Bool := run_log_check job "cool"

/-- `equil_finished(job)` (project.py lines 211-221). -/
def equil_finished (job : Job) : Option Bool := run_log_check job "equil"

/-- The index-qualified step name used by `prod_finished`:
`"prod" + str(job.doc.prod_replicates_done)`, defaulting to `"prod0"`
when the counter is absent. -/
def prod_step_name (job : Job) : String :=
  match job.doc.prod_replicates_done with
  | some n => "prod" ++ toString n
  | none => "prod0"

/-- `prod_finished(job)` (project.py lines 224-238). -/
def prod_finished (job : Job) : Option Bool := run_log_check job (prod_step_name job)

/-- Python truthiness of the value returned by a completion predicate:
`None` is falsy. -/
def truthy (o : Option Bool) : Bool := o.getD false

/-- `all_prod_replicates_done(job)` (project.py lines 174-182): reading
either absent field raises `AttributeError`/`KeyError`, caught by the
`except` clause which returns `False`; modelled by the catch-all match arm. -/
def all_prod_replicates_done (job : Job) : Bool :=
  match job.doc.prod_replicates_done, job.doc.num_prod_replicates with
  | some a, some b => a ≥ b
  | _, _ => false

/-- `set_equil_replicates(job)` (project.py lines 251-253). -/
def set_equil_replicates (job : Job) : Job :=
  { job with doc := { job.doc with equil_replicates_done := some 0 } }

/-- `set_prod_replicates(job)` (project.py lines 263-266). -/
def set_prod_replicates (job : Job) : Job :=
  { job with doc := { job.doc with num_prod_replicates := some 4,
                                   prod_replicates_done := some 0 } }

/-- The six files the external simulation binary writes into the working
directory on a successful run (project.py lines 404-410 and analogues). -/
structure EngineOutput where
  fort12 : List Char
  box1config1a_xyz : List Char
  run1a_dat : List Char
  config1a_dat : List Char
  box1movie1a_pdb : List Char
  box1movie1a_xyz : List Char

/-- Effect on the workspace of the engine subprocess writing its six
output files. -/
def writeEngineOutputs (fs : FS) (out : EngineOutput) : FS :=
  ((((((fs.write "fort.12" out.fort12).write
      "box1config1a.xyz" out.box1config1a_xyz).write
      "run1a.dat" out.run1a_dat).write
      "config1a.dat" out.config1a_dat).write
      "box1movie1a.pdb" out.box1movie1a_pdb).write
      "box1movie1a.xyz" out.box1movie1a_xyz)

/-- The artifact-harvest block shared by every stage runner, after the
subprocess: move `fort.12`, `box1config1a.xyz`, `run1a.dat` to their
stage-qualified names, copy `config1a.dat` to `fort.77`, then move
`config1a.dat` and the two movie files (project.py lines 404-410,
442-448, 481-487, 522-528). -/
def stage_postprocess (fs : FS) (step : String) : Option FS := do
  let fs2 ← moveFile fs "fort.12" ("fort.12." ++ step)
  let fs3 ← moveFile fs2 "box1config1a.xyz" ("box1config1a.xyz." ++ step)
  let fs4 ← moveFile fs3 "run1a.dat" ("run." ++ step)
  let fs5 ← copyFile fs4 "config1a.dat" "fort.77"
  let fs6 ← moveFile fs5 "config1a.dat" ("config1a.dat." ++ step)
  let fs7 ← moveFile fs6 "box1movie1a.pdb" ("box1movie1a.pdb." ++ step)
  let fs8 ← moveFile fs7 "box1movie1a.xyz" ("box1movie1a.xyz." ++ step)
  pure fs8

/-- The explicit workspace produced by a successful engine run followed
by `stage_postprocess` (the runners' common tail), starting from `fs0`. -/
def stage_final_fs (fs0 : FS) (out : EngineOutput) (step : String) : FS :=
  (((((((((((((writeEngineOutputs fs0 out).erase
    "fort.12").write ("fort.12." ++ step) out.fort12).erase
    "box1config1a.xyz").write ("box1config1a.xyz." ++ step) out.box1config1a_xyz).erase
    "run1a.dat").write ("run." ++ step) out.run1a_dat).write
    "fort.77" out.config1a_dat).erase
    "config1a.dat").write ("config1a.dat." ++ step) out.config1a_dat).erase
    "box1movie1a.pdb").write ("box1movie1a.pdb." ++ step) out.box1movie1a_pdb).erase
    "box1movie1a.xyz").write ("box1movie1a.xyz." ++ step) out.box1movie1a_xyz

/-- The file names written or erased by the runners' common tail. -/
def stage_touched (step : String) : List String :=
  ["fort.12", "box1config1a.xyz", "run1a.dat", "config1a.dat",
   "box1movie1a.pdb", "box1movie1a.xyz", "fort.77",
   "fort.12." ++ step, "box1config1a.xyz." ++ step, "run." ++ step,
   "config1a.dat." ++ step, "box1movie1a.pdb." ++ step,
   "box1movie1a.xyz." ++ step]

/-- Common body of the four stage runners: copy the stage's resolved
template to `fort.4` (raises when absent), run the engine (modelled as
writing `out`), then harvest the artifacts. -/
def run_stage (job : Job) (step fortInput : String) (out : EngineOutput) :
    Option Job := do
  let fs0 ← copyFile job.fs fortInput "fort.4"
  let fs9 ← stage_postprocess (writeEngineOutputs fs0 out) step
  pure { job with fs := fs9 }

/-- `run_melt(job)` (project.py lines 384-410). -/
def run_melt (job : Job) (out : EngineOutput) : Option Job :=
  run_stage job "melt" "fort.4.melt" out

/-- `run_cool(job)` (project.py lines 422-448). -/
def run_cool (job : Job) (out : EngineOutput) : Option Job :=
  run_stage job "cool" "fort.4.cool" out

/-- `run_equil(job)` (project.py lines 461-487). -/
def run_equil (job : Job) (out : EngineOutput) : Option Job :=
  run_stage job "equil" "fort.4.equil" out

/-- `run_prod(job)` (project.py lines 500-531): increments
`job.doc.prod_replicates_done` first (raising when the field is absent),
computes the replicate index from the incremented value, and runs the
stage with step `"prod" + str(replicate)` on the template `fort.4.prod`. -/
def run_prod (job : Job) (out : EngineOutput) : Option Job := do
  let n ← job.doc.prod_replicates_done
  let job1 := { job with doc := { job.doc with prod_replicates_done := some (n + 1) } }
  run_stage job1 ("prod" ++ toString (n + 1)) "fort.4.prod" out

/-- A couple of replacement helpers for the Template Resolver.
`replaceAll needle repl hay` is Python `hay.replace(needle, repl)`
(left-to-right, non-overlapping, all occurrences). -/
def replaceAll (needle repl : List Char) (hay : List Char) : List Char :=
  match hay with
  | [] => []
  | c :: rest =>
    if h : 0 < needle.length ∧ needle.isPrefixOf (c :: rest) = true then
      repl ++ replaceAll needle repl ((c :: rest).drop needle.length)
    else
      c :: replaceAll needle repl rest
termination_by hay.length
decreasing_by
  · simp only [List.length_drop, List.length_cons]
    omega
  · simp only [List.length_cons]
    omega

/-- The five keywords substituted by `replace_keyword_fort_files`
(project.py line 338). -/
def replace_keywords : List String :=
  ["NCHAIN", "LENGTH", "TEMPERATURE", "PRESSURE", "SEED"]

/-- The five substitution values computed by `replace_keyword_fort_files`
(project.py lines 332-337): chain count, box length converted nm to
angstrom by multiplying by 10, temperature, pressure converted kPa to
MPa by dividing by 1000, and the replica seed. -/
def replace_variables (sp : StatePoint) : List ℚ :=
  [(sp.N_liquid : ℚ), sp.box_L_liq * 10, sp.temperature,
   sp.pressure / 1000, (sp.replica : ℚ)]

/-- One template file's in-place rewrite: the five keyword substitutions
applied in order.  `render` models Python `str` on the numeric value. -/
def replace_in_file (render : ℚ → List Char) (sp : StatePoint)
    (content : List Char) : List Char :=
  (List.zip replace_keywords (replace_variables sp)).foldl
    (fun c kv => replaceAll kv.1.data (render kv.2) c) content

/-- Rewrite one template file in place; `fileinput` raises when the file
is absent. -/
def replace_one_file (render : ℚ → List Char) (sp : StatePoint) (fs : FS)
    (name : String) : Option FS := do
  let c ← fs ("fort.4." ++ name)
  pure (fs.write ("fort.4." ++ name) (replace_in_file render sp c))

/-- `replace_keyword_fort_files(job)` (project.py lines 329-345). -/
def replace_keyword_fort_files (render : ℚ → List Char) (job : Job) :
    Option Job := do
  let fs1 ← replace_one_file render job.sp job.fs "melt"
  let fs2 ← replace_one_file render job.sp fs1 "cool"
  let fs3 ← replace_one_file render job.sp fs2 "equil"
  let fs4 ← replace_one_file render job.sp fs3 "prod"
  pure { job with fs := fs4 }

/-- The mbuild molecules named by `molecule_dict` (opaque markers). -/
inductive Molecule where
  | MethaneUA : Molecule
  | PentaneUA : Molecule
  | WaterSPC : Molecule
deriving DecidableEq

/-- The Python errors the configuration paths can raise. -/
inductive PyError where
  | keyError (key : String) : PyError
  | exception (msg : String) : PyError
  | attributeError (msg : String) : PyError
deriving DecidableEq

/-- The dictionary of `get_molecules` (project.py lines 81-87): the keys
`benzeneUA` and `ethanolAA` are present but map to Python `None`. -/
def molecule_dict : List (String × Option Molecule) :=
  [("methaneUA", some Molecule.MethaneUA),
   ("pentaneUA", some Molecule.PentaneUA),
   ("benzeneUA", none),
   ("waterSPC/E", some Molecule.WaterSPC),
   ("ethanolAA", none)]

/-- `get_molecules(job)` (project.py lines 72-89): a dictionary lookup on
the state-point molecule name; a name absent from the dictionary raises
`KeyError(name)`. -/
def get_molecules (job : Job) : Except PyError (List (Option Molecule)) :=
  match molecule_dict.lookup job.sp.molecule with
  | some m => Except.ok [m]
  | none => Except.error (PyError.keyError job.sp.molecule)

/-- The force field chosen by `get_system` (the typed system itself is
built by opaque external libraries). -/
inductive AppliedFF where
  | trappe_ua : AppliedFF
  | oplsaa : AppliedFF
  | spce : AppliedFF
deriving DecidableEq

/-- `get_system(job)` (project.py lines 26-69): takes the first molecule
from `get_molecules` (propagating its error), calls `.to_parmed()` on it
(an `AttributeError` when it is `None`), then selects the force field by
name, raising an explicit `Exception` naming the job id when the name is
unknown.  The external system construction and force-field application
are opaque; the observable outcome is the chosen force field or the
error. -/
def get_system (job : Job) : Except PyError AppliedFF := do
  let mols ← get_molecules job
  match mols.head? with
  | none => Except.error (PyError.exception "list index out of range")
  | some none =>
      Except.error (PyError.attributeError
        "NoneType object has no attribute to_parmed")
  | some (some _) =>
      if job.sp.forcefield_name = "trappe-ua" then pure AppliedFF.trappe_ua
      else if job.sp.forcefield_name = "oplsaa" then pure AppliedFF.oplsaa
      else if job.sp.forcefield_name = "spce" then pure AppliedFF.spce
      else Except.error (PyError.exception
        ("No forcefield has been applied to this system " ++ job.id))

/-- An error counts as an explicit, job-identifying configuration error
when it is an explicitly raised `Exception` whose message contains the
job id. -/
def error_identifies_job (job : Job) (e : PyError) : Prop :=
  ∃ msg, e = PyError.exception msg ∧ containsTok job.id.data msg.data = true

/-- The conjunction of `run_prod`'s two declared postconditions
(`@Project.post(prod_finished)` and `@Project.post(all_prod_replicates_done)`,
project.py lines 498-499), each read through Python truthiness.  The
workflow engine keeps an operation eligible — and so re-fires it on the
next scheduling pass — while this conjunction is false. -/
def run_prod_post (job : Job) : Bool :=
  truthy (prod_finished job) && all_prod_replicates_done job

/-- Job states reachable from a fresh job (empty document) through the
document-mutating operations of the module; each stage runner fires with
some engine output.  The production runner fires under its declared
eligibility (project.py lines 490-499): the state-point precondition,
`has_restart_file`, a truthy `equil_finished`, and — the workflow
engine's refire rule — not all of its postconditions satisfied, that is,
`run_prod_post` still false. -/
inductive Reachable : Job → Prop where
  | init (id : String) (sp : StatePoint) (fs : FS) :
      Reachable { id := id, sp := sp, doc := {}, fs := fs }
  | set_equil {j : Job} : Reachable j → Reachable (set_equil_replicates j)
  | set_prod {j : Job} : Reachable j → Reachable (set_prod_replicates j)
  | ready {j : Job} : Reachable j → Reachable (files_ready j).1
  | melt {j j2 : Job} (out : EngineOutput) :
      Reachable j → run_melt j out = some j2 → Reachable j2
  | cool {j j2 : Job} (out : EngineOutput) :
      Reachable j → run_cool j out = some j2 → Reachable j2
  | equil {j j2 : Job} (out : EngineOutput) :
      Reachable j → run_equil j out = some j2 → Reachable j2
  | prod {j j2 : Job} (out : EngineOutput) :
      Reachable j →
      j.sp.engine = "mcccs" → j.sp.molecule = "pentaneUA" →
      j.sp.ensemble = "NPT" →
      has_restart_file j = true → truthy (equil_finished j) = true →
      run_prod_post j = false →
      run_prod j out = some j2 → Reachable j2

/-- The same operations, but with the production runner gated on the
stronger condition that `all_prod_replicates_done` alone is still false
(the counter strictly below the target) — a conservative restriction of
the workflow engine's real refire rule, under which the counter
invariant of the amended C5 does hold. -/
inductive ReachableGated : Job → Prop where
  | init (id : String) (sp : StatePoint) (fs : FS) :
      ReachableGated { id := id, sp := sp, doc := {}, fs := fs }
  | set_equil {j : Job} : ReachableGated j → ReachableGated (set_equil_replicates j)
  | set_prod {j : Job} : ReachableGated j → ReachableGated (set_prod_replicates j)
  | ready {j : Job} : ReachableGated j → ReachableGated (files_ready j).1
  | melt {j j2 : Job} (out : EngineOutput) :
      ReachableGated j → run_melt j out = some j2 → ReachableGated j2
  | cool {j j2 : Job} (out : EngineOutput) :
      ReachableGated j → run_cool j out = some j2 → ReachableGated j2
  | equil {j j2 : Job} (out : EngineOutput) :
      ReachableGated j → run_equil j out = some j2 → ReachableGated j2
  | prod {j j2 : Job} (out : EngineOutput) :
      ReachableGated j → all_prod_replicates_done j = false →
      run_prod j out = some j2 → ReachableGated j2

/-- Build a workspace from an association list of files. -/
def fs_of (l : List (String × List Char)) : FS := fun name => l.lookup name

/-- The empty workspace. -/
def fs_empty : FS := fun _ => none

/-- A pentane NPT state point as selected by the module's preconditions. -/
def sp_pentane : StatePoint :=
  { engine := "mcccs", molecule := "pentaneUA", ensemble := "NPT",
    forcefield_name := "trappe-ua", replica := 0, N_liquid := 450,
    box_L_liq := 2.5, temperature := 372, pressure := 1402 }

/-- A fresh job with an empty document and workspace. -/
def job0 : Job := { id := "a1b2c3", sp := sp_pentane, doc := {}, fs := fs_empty }

/-- A job whose four template files exist and one still holds a keyword. -/
def job_leftover : Job :=
  { job0 with fs := (fs_of
      [("fort.4.melt", "nchain NCHAIN".data), ("fort.4.cool", "ok".data),
       ("fort.4.equil", "ok".data), ("fort.4.prod", "ok".data)]) }

/-- A job whose four template files exist and are keyword-free. -/
def job_clean : Job :=
  { job0 with fs := (fs_of
      [("fort.4.melt", "nchain 450".data), ("fort.4.cool", "ok".data),
       ("fort.4.equil", "ok".data), ("fort.4.prod", "ok".data)]) }

/-- A job with only one (keyword-free) template file present. -/
def job_onecool : Job :=
  { job0 with fs := fs_of [("fort.4.cool", [])] }

/-- A job whose melt run log exists and holds the termination marker. -/
def job_meltdone : Job :=
  { job0 with fs := fs_of [("run.melt", "a Program ended b".data)] }

/-- A job whose melt run log exists but is truncated (no marker). -/
def job_meltpartial : Job :=
  { job0 with fs := fs_of [("run.melt", "a Program".data)] }

/-- A job holding only the prod template, with the replicate counters
initialized by `set_prod_replicates`. -/
def job_prodready : Job :=
  { job0 with
      doc := { num_prod_replicates := some 4, prod_replicates_done := some 0 },
      fs := fs_of [("fort.4.prod", ['p'])] }

/-- A job holding only the melt template. -/
def job_meltready : Job :=
  { job0 with fs := fs_of [("fort.4.melt", ['m'])] }

/-- A concrete engine output. -/
def out0 : EngineOutput :=
  { fort12 := ['1'], box1config1a_xyz := ['2'], run1a_dat := ['3'],
    config1a_dat := ['4'], box1movie1a_pdb := ['5'], box1movie1a_xyz := ['6'] }

/-- A second concrete engine output, distinct from `out0`. -/
def out1 : EngineOutput :=
  { fort12 := ['a'], box1config1a_xyz := ['b'], run1a_dat := ['c'],
    config1a_dat := ['d'], box1movie1a_pdb := ['e'], box1movie1a_xyz := ['f'] }

/-- A job naming a molecule absent from `molecule_dict`. -/
def c8_job : Job := { job0 with sp := { sp_pentane with molecule := "benzene" } }

/-- A job naming the configured-but-unimplemented molecule `benzeneUA`. -/
def job_benzeneUA : Job :=
  { job0 with sp := { sp_pentane with molecule := "benzeneUA" } }

/-- A job naming the configured-but-unimplemented molecule `ethanolAA`. -/
def job_ethanolAA : Job :=
  { job0 with sp := { sp_pentane with molecule := "ethanolAA" } }

/-- The pentane state point at the spec's conversion test values:
box length 2.5 nm and pressure 101.325 kPa. -/
def sp_conv : StatePoint := { sp_pentane with pressure := 101.325 }

/-- An engine output whose run log lacks the "Program ended" marker — a
production run whose simulation did not terminate cleanly. -/
def outbad : EngineOutput :=
  { fort12 := ['1'], box1config1a_xyz := ['2'], run1a_dat := ['z'],
    config1a_dat := ['4'], box1movie1a_pdb := ['5'], box1movie1a_xyz := ['6'] }

/-- Start state of the counter-overflow scenario: a fresh job whose
workspace satisfies `run_prod`'s file preconditions (prod template,
restart file, and a completed equil log). -/
def cex0 : Job :=
  { id := "a1b2c3", sp := sp_pentane, doc := {},
    fs := (fs_of [("fort.4.prod", ['p']), ("fort.77", ['r']),
                  ("run.equil", "Program ended".data)]) }

/-- Counters initialized: 0 of 4 replicates done. -/
def cex1 : Job := set_prod_replicates cex0

/-- After the first production run (counter 1). -/
def cex2 : Job := (run_prod cex1 outbad).getD cex1

/-- After the second production run (counter 2). -/
def cex3 : Job := (run_prod cex2 outbad).getD cex2

/-- After the third production run (counter 3). -/
def cex4 : Job := (run_prod cex3 outbad).getD cex3

/-- After the fourth production run (counter 4 of 4, but `run.prod4`
lacks the termination marker, so `prod_finished` is falsy and the
operation stays eligible). -/
def cex5 : Job := (run_prod cex4 outbad).getD cex4

/-- After the refired fifth production run: counter 5 of 4. -/
def cex6 : Job := (run_prod cex5 outbad).getD cex5

/-! ## Helper lemmas -/

/-- Containment test agrees with the infix relation. -/
theorem containsTok_iff (needle hay : List Char) :
    containsTok needle hay = true ↔ needle <:+: hay := by
  simp [containsTok]

/-- Failed containment test agrees with the negated infix relation. -/
theorem containsTok_eq_false_iff (needle hay : List Char) :
    containsTok needle hay = false ↔ ¬ (needle <:+: hay) := by
  simp [containsTok]

/-- Pointwise view of a workspace write. -/
theorem FS.write_apply (fs : FS) (a b : String) (c : List Char) :
    (fs.write a c) b = if b = a then some c else fs b :=
  Function.update_apply fs a (some c) b

/-- Pointwise view of a workspace erase. -/
theorem FS.erase_apply (fs : FS) (a b : String) :
    (fs.erase a) b = if b = a then none else fs b :=
  Function.update_apply fs a none b

/-- The counter of `files_ready` is zero exactly when no present template
file holds any of the five keywords. -/
theorem keyword_count_eq_zero_iff (job : Job) :
    keyword_count job = 0 ↔
      ∀ name ∈ file_names, (job.fs ("fort.4." ++ name)).isSome = true →
        ∀ kw ∈ ready_keywords,
          containsTok kw.data (fort_file_content job name) = false := by
  unfold keyword_count
  rw [List.sum_eq_zero_iff]
  constructor
  · intro h name hname hsome kw hkw
    have h2 := h _ (List.mem_map_of_mem _ hname)
    rw [if_pos hsome] at h2
    have h3 := (List.countP_eq_zero).mp h2 kw hkw
    simpa using h3
  · intro h x hx
    obtain ⟨name, hname, rfl⟩ := List.mem_map.mp hx
    by_cases hsome : (job.fs ("fort.4." ++ name)).isSome = true
    · rw [if_pos hsome]
      refine (List.countP_eq_zero).mpr ?_
      intro kw hkw
      simpa using h name hname hsome kw hkw
    · rw [if_neg hsome]

/-- The boolean returned by `files_ready` is the zero test of the counter. -/
theorem files_ready_snd (job : Job) :
    (files_ready job).2 = true ↔ keyword_count job = 0 := by
  simp [files_ready]

/-! ## Claim C1 -/

/-- C1: for a job whose four template files `fort.4.{melt,cool,equil,prod}`
are all present, `files_ready` returns true only if none of the five
keyword tokens (NCHAIN, LENGTH, TEMPERATURE, PRESSURE, VARIABLES — the
spec's SEED/VARIABLES slot is scanned as VARIABLES) occurs in any of the
four files; in particular any leftover token in any file forces a false
return. -/
theorem files_ready_true_iff_no_keywords (job : Job)
    (hall : ∀ name ∈ file_names, (job.fs ("fort.4." ++ name)).isSome = true) :
    ((files_ready job).2 = true ↔
      ∀ name ∈ file_names, ∀ kw ∈ ready_keywords,
        ¬ (kw.data <:+: fort_file_content job name)) ∧
    (∀ name ∈ file_names, ∀ kw ∈ ready_keywords,
      kw.data <:+: fort_file_content job name → (files_ready job).2 = false) := by
  have hiff : (files_ready job).2 = true ↔
      ∀ name ∈ file_names, ∀ kw ∈ ready_keywords,
        ¬ (kw.data <:+: fort_file_content job name) := by
    rw [files_ready_snd, keyword_count_eq_zero_iff]
    constructor
    · intro h name hname kw hkw
      exact (containsTok_eq_false_iff _ _).mp (h name hname (hall name hname) kw hkw)
    · intro h name hname _ kw hkw
      exact (containsTok_eq_false_iff _ _).mpr (h name hname kw hkw)
  refine ⟨hiff, ?_⟩
  intro name hname kw hkw hin
  cases hb : (files_ready job).2 with
  | false => rfl
  | true => exact absurd hin (hiff.mp hb name hname kw hkw)

/-- C1 witness: on a job with all four template files present and a
leftover NCHAIN in the melt template, `files_ready` returns false. -/
theorem files_ready_true_iff_no_keywords_witness :
    (files_ready job_leftover).2 = false := by
  refine (files_ready_true_iff_no_keywords job_leftover (by decide)).2
    "melt" (by decide) "NCHAIN" (by decide) ?_
  decide

/-! ## Claim C6 -/

/-- C6: `files_ready` silently skips a missing template file: its result
is true exactly when every present template file is keyword-free, so a
job in which only a subset of the four files exists (all keyword-free) —
including a job with none of them — is reported ready. -/
theorem files_ready_skips_missing_files :
    (∀ job : Job, (files_ready job).2 = true ↔
      ∀ name ∈ file_names, ∀ c, job.fs ("fort.4." ++ name) = some c →
        ∀ kw ∈ ready_keywords, ¬ (kw.data <:+: c)) ∧
    (files_ready job0).2 = true ∧
    (files_ready job_onecool).2 = true := by
  refine ⟨?_, by decide, by decide⟩
  intro job
  rw [files_ready_snd, keyword_count_eq_zero_iff]
  constructor
  · intro h name hname c hc kw hkw
    have h2 := h name hname (by simp [hc]) kw hkw
    rw [containsTok_eq_false_iff] at h2
    simpa [fort_file_content, hc] using h2
  · intro h name hname hsome kw hkw
    rw [containsTok_eq_false_iff]
    obtain ⟨c, hc⟩ := Option.isSome_iff_exists.mp hsome
    simpa [fort_file_content, hc] using h name hname c hc kw hkw

/-- C6 witness: the general characterization applied to the job holding
only a clean cool template reports it ready. -/
theorem files_ready_skips_missing_files_witness :
    (files_ready job_clean).2 = true := by
  refine (files_ready_skips_missing_files.1 job_clean).mpr ?_
  intro name hname c hc
  fin_cases hname <;> simp [job_clean, job0, fs_of, List.lookup] at hc <;>
    subst hc <;> decide

/-! ## Claim C3 -/

/-- C3: each stage completion predicate is falsy when the stage's run-log
file is absent (the Python function returns `None`), and otherwise is
true exactly when the literal substring "Program ended" occurs anywhere
in the file's contents — so any other content, including a truncated
log, yields false.  For prod the stage's log is the index-qualified
`run.<prod_step_name>`. -/
theorem stage_completion_marker (job : Job) :
    (job.fs "run.melt" = none → truthy (melt_finished job) = false) ∧
    (∀ c, job.fs "run.melt" = some c →
      (truthy (melt_finished job) = true ↔ "Program ended".data <:+: c)) ∧
    (job.fs "run.cool" = none → truthy (cool_finished job) = false) ∧
    (∀ c, job.fs "run.cool" = some c →
      (truthy (cool_finished job) = true ↔ "Program ended".data <:+: c)) ∧
    (job.fs "run.equil" = none → truthy (equil_finished job) = false) ∧
    (∀ c, job.fs "run.equil" = some c →
      (truthy (equil_finished job) = true ↔ "Program ended".data <:+: c)) ∧
    (job.fs ("run." ++ prod_step_name job) = none →
      truthy (prod_finished job) = false) ∧
    (∀ c, job.fs ("run." ++ prod_step_name job) = some c →
      (truthy (prod_finished job) = true ↔ "Program ended".data <:+: c)) := by
  refine ⟨fun h => ?_, fun c h => ?_, fun h => ?_, fun c h => ?_,
          fun h => ?_, fun c h => ?_, fun h => ?_, fun c h => ?_⟩ <;>
    simp [melt_finished, cool_finished, equil_finished, prod_finished,
          run_log_check, truthy, h, containsTok]

/-- C3 witness: absent log is falsy, a log holding the marker is true,
and a truncated log is false. -/
theorem stage_completion_marker_witness :
    truthy (melt_finished job0) = false ∧
    truthy (melt_finished job_meltdone) = true ∧
    truthy (melt_finished job_meltpartial) = false := by
  refine ⟨(stage_completion_marker job0).1 rfl,
    ((stage_completion_marker job_meltdone).2.1 _ rfl).mpr (by decide), ?_⟩
  have h := ((stage_completion_marker job_meltpartial).2.1 _ rfl)
  cases hb : truthy (melt_finished job_meltpartial) with
  | false => rfl
  | true => exact absurd (h.mp hb) (by decide)

/-! ## Claim C4 -/

/-- C4: `all_prod_replicates_done` is true exactly when both document
fields are present with `prod_replicates_done >= num_prod_replicates`,
and an absent field yields false through the except-path rather than an
error. -/
theorem all_prod_replicates_done_iff (job : Job) :
    (all_prod_replicates_done job = true ↔
      ∃ a b : Int, job.doc.prod_replicates_done = some a ∧
        job.doc.num_prod_replicates = some b ∧ a ≥ b) ∧
    ((job.doc.prod_replicates_done = none ∨
      job.doc.num_prod_replicates = none) →
      all_prod_replicates_done job = false) := by
  unfold all_prod_replicates_done
  rcases h1 : job.doc.prod_replicates_done with _ | a <;>
    rcases h2 : job.doc.num_prod_replicates with _ | b <;>
    simp [h1, h2, ge_iff_le]

/-- C4 witness: the characterization applied to the freshly initialized
counters (0 of 4 replicates done) and to the fresh empty document. -/
theorem all_prod_replicates_done_iff_witness :
    all_prod_replicates_done (set_prod_replicates job0) = false ∧
    all_prod_replicates_done job0 = false := by
  constructor
  · cases hb : all_prod_replicates_done (set_prod_replicates job0) with
    | false => rfl
    | true =>
        obtain ⟨a, b, ha, hb2, hab⟩ :=
          ((all_prod_replicates_done_iff (set_prod_replicates job0)).1).mp hb
        rw [show (set_prod_replicates job0).doc.prod_replicates_done = some 0
              from rfl] at ha
        rw [show (set_prod_replicates job0).doc.num_prod_replicates = some 4
              from rfl] at hb2
        cases ha
        cases hb2
        omega
  · exact (all_prod_replicates_done_iff job0).2 (Or.inl rfl)

/-! ## Claim C7 -/

/-- C7: the Template Resolver's unit conversions are exact on the model's
rational arithmetic: a box length of 2.5 (nm) produces the substitution
value 25 for the LENGTH token (times 10, nm to angstrom) and a pressure
of 101.325 (kPa) produces 0.101325 for the PRESSURE token (divided by
1000, kPa to MPa). -/
theorem unit_conversions_exact (sp : StatePoint)
    (hL : sp.box_L_liq = 2.5) (hP : sp.pressure = 101.325) :
    replace_variables sp =
      [(sp.N_liquid : ℚ), 25, sp.temperature, 0.101325, (sp.replica : ℚ)] ∧
    replace_keywords[1]? = some "LENGTH" ∧
    replace_keywords[3]? = some "PRESSURE" := by
  refine ⟨?_, rfl, rfl⟩
  rw [replace_variables, hL, hP]
  norm_num

/-- C7 witness: the conversion theorem applied at the concrete state
point with box length 2.5 and pressure 101.325. -/
theorem unit_conversions_exact_witness :
    replace_variables sp_conv =
      [(450 : ℚ), 25, 372, 0.101325, 0] := by
  have h := (unit_conversions_exact sp_conv rfl rfl).1
  simpa [sp_conv, sp_pentane] using h

/-! ## Stage-runner machinery lemmas -/

/-- A move with a present source succeeds, erasing it and writing the
destination. -/
theorem moveFile_of_some {fs : FS} {src : String} {c : List Char}
    (h : fs src = some c) (dst : String) :
    moveFile fs src dst = some ((fs.erase src).write dst c) := by
  simp [moveFile, h]

/-- A copy with a present source succeeds, writing the destination. -/
theorem copyFile_of_some {fs : FS} {src : String} {c : List Char}
    (h : fs src = some c) (dst : String) :
    copyFile fs src dst = some (fs.write dst c) := by
  simp [copyFile, h]

/-- The artifact-harvest block, run after the engine has written its six
output files, always succeeds and produces `stage_final_fs`. -/
theorem stage_postprocess_eq (fs0 : FS) (out : EngineOutput) (step : String) :
    stage_postprocess (writeEngineOutputs fs0 out) step =
      some (stage_final_fs fs0 out step) := by
  have h1 : (writeEngineOutputs fs0 out) "fort.12" = some out.fort12 := by
    simp [writeEngineOutputs, FS.write, Function.update_apply]
  have h2 : (((writeEngineOutputs fs0 out).erase
      "fort.12").write ("fort.12." ++ step) out.fort12)
      "box1config1a.xyz" = some out.box1config1a_xyz := by
    simp [writeEngineOutputs, FS.write, FS.erase, Function.update_apply,
      String.ext_iff]
  have h3 : (((((writeEngineOutputs fs0 out).erase
      "fort.12").write ("fort.12." ++ step) out.fort12).erase
      "box1config1a.xyz").write ("box1config1a.xyz." ++ step) out.box1config1a_xyz)
      "run1a.dat" = some out.run1a_dat := by
    simp [writeEngineOutputs, FS.write, FS.erase, Function.update_apply,
      String.ext_iff]
  have h4 : (((((((writeEngineOutputs fs0 out).erase
      "fort.12").write ("fort.12." ++ step) out.fort12).erase
      "box1config1a.xyz").write ("box1config1a.xyz." ++ step) out.box1config1a_xyz).erase
      "run1a.dat").write ("run." ++ step) out.run1a_dat)
      "config1a.dat" = some out.config1a_dat := by
    simp [writeEngineOutputs, FS.write, FS.erase, Function.update_apply,
      String.ext_iff]
  have h5 : ((((((((writeEngineOutputs fs0 out).erase
      "fort.12").write ("fort.12." ++ step) out.fort12).erase
      "box1config1a.xyz").write ("box1config1a.xyz." ++ step) out.box1config1a_xyz).erase
      "run1a.dat").write ("run." ++ step) out.run1a_dat).write
      "fort.77" out.config1a_dat)
      "config1a.dat" = some out.config1a_dat := by
    simp [writeEngineOutputs, FS.write, FS.erase, Function.update_apply,
      String.ext_iff]
  have h6 : ((((((((((writeEngineOutputs fs0 out).erase
      "fort.12").write ("fort.12." ++ step) out.fort12).erase
      "box1config1a.xyz").write ("box1config1a.xyz." ++ step) out.box1config1a_xyz).erase
      "run1a.dat").write ("run." ++ step) out.run1a_dat).write
      "fort.77" out.config1a_dat).erase
      "config1a.dat").write ("config1a.dat." ++ step) out.config1a_dat)
      "box1movie1a.pdb" = some out.box1movie1a_pdb := by
    simp [writeEngineOutputs, FS.write, FS.erase, Function.update_apply,
      String.ext_iff]
  have h7 : ((((((((((((writeEngineOutputs fs0 out).erase
      "fort.12").write ("fort.12." ++ step) out.fort12).erase
      "box1config1a.xyz").write ("box1config1a.xyz." ++ step) out.box1config1a_xyz).erase
      "run1a.dat").write ("run." ++ step) out.run1a_dat).write
      "fort.77" out.config1a_dat).erase
      "config1a.dat").write ("config1a.dat." ++ step) out.config1a_dat).erase
      "box1movie1a.pdb").write ("box1movie1a.pdb." ++ step) out.box1movie1a_pdb)
      "box1movie1a.xyz" = some out.box1movie1a_xyz := by
    simp [writeEngineOutputs, FS.write, FS.erase, Function.update_apply,
      String.ext_iff]
  rw [stage_postprocess]
  simp only [Option.bind_eq_bind', Option.some_bind, moveFile_of_some h1,
    moveFile_of_some h2, moveFile_of_some h3, copyFile_of_some h4,
    moveFile_of_some h5, moveFile_of_some h6, moveFile_of_some h7]
  rfl

/-- After the harvest block the canonical restart file holds the engine's
new restart artifact. -/
theorem stage_final_fs_fort77 (fs0 : FS) (out : EngineOutput) (step : String) :
    stage_final_fs fs0 out step "fort.77" = some out.config1a_dat := by
  simp [stage_final_fs, FS.write, FS.erase, Function.update_apply,
    String.ext_iff]

/-- After the harvest block the stage-qualified run log holds the
engine's log output. -/
theorem stage_final_fs_runlog (fs0 : FS) (out : EngineOutput) (step : String) :
    stage_final_fs fs0 out step ("run." ++ step) = some out.run1a_dat := by
  simp [stage_final_fs, FS.write, FS.erase, Function.update_apply,
    String.ext_iff]

/-- The harvest block leaves untouched file names unchanged. -/
theorem stage_final_fs_frame (fs0 : FS) (out : EngineOutput) (step : String)
    (name : String) (h : name ∉ stage_touched step) :
    stage_final_fs fs0 out step name = fs0 name := by
  simp only [stage_touched, List.mem_cons, List.not_mem_nil, or_false,
    not_or] at h
  obtain ⟨e1, e2, e3, e4, e5, e6, e7, e8, e9, e10, e11, e12, e13⟩ := h
  simp [stage_final_fs, writeEngineOutputs, FS.write, FS.erase,
    Function.update_apply, e1, e2, e3, e4, e5, e6, e7, e8, e9, e10, e11,
    e12, e13]

/-- A stage runner whose template input is present succeeds and produces
an explicit final job state. -/
theorem run_stage_eq (job : Job) (step fortInput : String)
    (out : EngineOutput) (c : List Char) (h : job.fs fortInput = some c) :
    run_stage job step fortInput out =
      some { job with fs := stage_final_fs (job.fs.write "fort.4" c) out step } := by
  rw [run_stage]
  simp only [Option.bind_eq_bind', Option.some_bind, copyFile_of_some h,
    stage_postprocess_eq]
  rfl

/-- A stage runner that succeeded had its template input present. -/
theorem run_stage_some_inv {job : Job} {step fortInput : String}
    {out : EngineOutput} {j2 : Job}
    (h : run_stage job step fortInput out = some j2) :
    ∃ c, job.fs fortInput = some c := by
  rcases hc : job.fs fortInput with _ | c
  · rw [run_stage] at h
    simp [copyFile, hc] at h
  · exact ⟨c, rfl⟩

/-- A successful stage runner leaves the document, state point and id
unchanged, primes the canonical restart file with the engine's restart
artifact, and stores the engine log under the stage-qualified name. -/
theorem run_stage_spec {job : Job} {step fortInput : String}
    {out : EngineOutput} {j2 : Job}
    (h : run_stage job step fortInput out = some j2) :
    j2.doc = job.doc ∧ j2.sp = job.sp ∧ j2.id = job.id ∧
    j2.fs "fort.77" = some out.config1a_dat ∧
    j2.fs ("run." ++ step) = some out.run1a_dat ∧
    (∀ name, name ∉ stage_touched step → name ≠ "fort.4" →
      j2.fs name = job.fs name) := by
  obtain ⟨c, hc⟩ := run_stage_some_inv h
  rw [run_stage_eq job step fortInput out c hc] at h
  obtain rfl := Option.some_injective _ h.symm
  refine ⟨rfl, rfl, rfl, ?_, ?_, ?_⟩
  · exact stage_final_fs_fort77 (job.fs.write "fort.4" c) out step
  · exact stage_final_fs_runlog (job.fs.write "fort.4" c) out step
  · intro name hmem hne
    show stage_final_fs (job.fs.write "fort.4" c) out step name = job.fs name
    rw [stage_final_fs_frame _ _ _ _ hmem, FS.write_apply, if_neg hne]

/-- A successful production runner had the counter present, incremented
it before naming, and ran the stage under the incremented index. -/
theorem run_prod_inv {job : Job} {out : EngineOutput} {j2 : Job}
    (h : run_prod job out = some j2) :
    ∃ n, job.doc.prod_replicates_done = some n ∧
      run_stage { job with doc := { job.doc with prod_replicates_done := some (n + 1) } }
        ("prod" ++ toString (n + 1)) "fort.4.prod" out = some j2 := by
  rcases hn : job.doc.prod_replicates_done with _ | n
  · rw [run_prod] at h
    simp [hn] at h
  · refine ⟨n, rfl, ?_⟩
    rw [run_prod] at h
    rw [hn] at h
    simpa using h

/-! ## Claim C9 -/

/-- C9: every stage runner copies `config1a.dat` to the canonical restart
name `fort.77` before moving `config1a.dat` to its stage-qualified name,
so after any successful stage run the job has a restart file holding the
engine's new restart artifact — each stage transition re-establishes
`has_restart_file`. -/
theorem stage_runners_prime_restart_file :
    (∀ (job : Job) (out : EngineOutput) (j2 : Job),
      run_melt job out = some j2 →
        j2.fs "fort.77" = some out.config1a_dat ∧ has_restart_file j2 = true) ∧
    (∀ (job : Job) (out : EngineOutput) (j2 : Job),
      run_cool job out = some j2 →
        j2.fs "fort.77" = some out.config1a_dat ∧ has_restart_file j2 = true) ∧
    (∀ (job : Job) (out : EngineOutput) (j2 : Job),
      run_equil job out = some j2 →
        j2.fs "fort.77" = some out.config1a_dat ∧ has_restart_file j2 = true) ∧
    (∀ (job : Job) (out : EngineOutput) (j2 : Job),
      run_prod job out = some j2 →
        j2.fs "fort.77" = some out.config1a_dat ∧ has_restart_file j2 = true) := by
  have hgen : ∀ {job : Job} {step fortInput : String} {out : EngineOutput}
      {j2 : Job}, run_stage job step fortInput out = some j2 →
      j2.fs "fort.77" = some out.config1a_dat ∧ has_restart_file j2 = true := by
    intro job step fortInput out j2 h
    have h77 := (run_stage_spec h).2.2.2.1
    exact ⟨h77, by simp [has_restart_file, Job.isfile, h77]⟩
  refine ⟨fun job out j2 h => hgen h, fun job out j2 h => hgen h,
    fun job out j2 h => hgen h, fun job out j2 h => ?_⟩
  obtain ⟨n, _, hrun⟩ := run_prod_inv h
  exact hgen hrun

/-- C9 witness: a concrete successful melt run on a job holding only the
melt template yields a job with the restart file present. -/
theorem stage_runners_prime_restart_file_witness :
    ∃ j2, run_melt job_meltready out0 = some j2 ∧
      has_restart_file j2 = true := by
  have hs : (run_melt job_meltready out0).isSome = true := by decide
  have he : run_melt job_meltready out0 =
      some ((run_melt job_meltready out0).get hs) := (Option.some_get hs).symm
  exact ⟨_, he, (stage_runners_prime_restart_file.1 _ _ _ he).2⟩

/-! ## Claim C2 -/

/-- C2: `run_prod` increments `prod_replicates_done` before computing the
replicate index used for naming, so a first production run from counter 0
produces artifacts suffixed `prod1` (never `prod0`), and a second run
takes the counter 0 to 1 to 2 and produces `prod2` without overwriting
the `prod1` artifacts. -/
theorem run_prod_twice (job : Job) (o1 o2 : EngineOutput) (c : List Char)
    (h0 : job.doc.prod_replicates_done = some 0)
    (hf : job.fs "fort.4.prod" = some c) :
    ∃ j1 j2,
      run_prod job o1 = some j1 ∧
      j1.doc.prod_replicates_done = some 1 ∧
      j1.fs "run.prod1" = some o1.run1a_dat ∧
      j1.fs "run.prod0" = job.fs "run.prod0" ∧
      run_prod j1 o2 = some j2 ∧
      j2.doc.prod_replicates_done = some 2 ∧
      j2.fs "run.prod2" = some o2.run1a_dat ∧
      j2.fs "run.prod1" = some o1.run1a_dat := by
  set jobA : Job :=
    { job with doc := { job.doc with prod_replicates_done := some 1 } } with hjobA
  have hstep1 : run_prod job o1 = run_stage jobA "prod1" "fort.4.prod" o1 := by
    rw [run_prod, h0]
    rfl
  have hfA : jobA.fs "fort.4.prod" = some c := hf
  have hrun1 : run_stage jobA "prod1" "fort.4.prod" o1 =
      some { jobA with fs := stage_final_fs (jobA.fs.write "fort.4" c) o1 "prod1" } :=
    run_stage_eq jobA "prod1" "fort.4.prod" o1 c hfA
  set j1 : Job :=
    { jobA with fs := stage_final_fs (jobA.fs.write "fort.4" c) o1 "prod1" } with hj1
  have hj1doc : j1.doc.prod_replicates_done = some 1 := rfl
  have hframe1 : ∀ name, name ∉ stage_touched "prod1" → name ≠ "fort.4" →
      j1.fs name = job.fs name := by
    intro name hmem hne
    show stage_final_fs (jobA.fs.write "fort.4" c) o1 "prod1" name = job.fs name
    rw [stage_final_fs_frame _ _ _ _ hmem, FS.write_apply, if_neg hne]
  have hlog1 : j1.fs "run.prod1" = some o1.run1a_dat := by
    have h := stage_final_fs_runlog (jobA.fs.write "fort.4" c) o1 "prod1"
    rw [show ("run." ++ "prod1" : String) = "run.prod1" from rfl] at h
    exact h
  have hold1 : j1.fs "run.prod0" = job.fs "run.prod0" :=
    hframe1 "run.prod0" (by decide) (by decide)
  have hf1 : j1.fs "fort.4.prod" = some c := by
    rw [hframe1 "fort.4.prod" (by decide) (by decide)]
    exact hf
  set jobB : Job :=
    { j1 with doc := { j1.doc with prod_replicates_done := some 2 } } with hjobB
  have hstep2 : run_prod j1 o2 = run_stage jobB "prod2" "fort.4.prod" o2 := by
    rw [run_prod, hj1doc]
    rfl
  have hfB : jobB.fs "fort.4.prod" = some c := hf1
  have hrun2 : run_stage jobB "prod2" "fort.4.prod" o2 =
      some { jobB with fs := stage_final_fs (jobB.fs.write "fort.4" c) o2 "prod2" } :=
    run_stage_eq jobB "prod2" "fort.4.prod" o2 c hfB
  set j2 : Job :=
    { jobB with fs := stage_final_fs (jobB.fs.write "fort.4" c) o2 "prod2" } with hj2
  have hframe2 : ∀ name, name ∉ stage_touched "prod2" → name ≠ "fort.4" →
      j2.fs name = j1.fs name := by
    intro name hmem hne
    show stage_final_fs (jobB.fs.write "fort.4" c) o2 "prod2" name = j1.fs name
    rw [stage_final_fs_frame _ _ _ _ hmem, FS.write_apply, if_neg hne]
  have hlog2 : j2.fs "run.prod2" = some o2.run1a_dat := by
    have h := stage_final_fs_runlog (jobB.fs.write "fort.4" c) o2 "prod2"
    rw [show ("run." ++ "prod2" : String) = "run.prod2" from rfl] at h
    exact h
  refine ⟨j1, j2, ?_, hj1doc, hlog1, hold1, ?_, rfl, hlog2, ?_⟩
  · rw [hstep1, hrun1]
  · rw [hstep2, hrun2]
  · rw [hframe2 "run.prod1" (by decide) (by decide)]
    exact hlog1

/-- C2 witness: the two-run scenario applied to a concrete job whose
counter is freshly initialized to 0 and whose prod template is present. -/
theorem run_prod_twice_witness :
    ∃ j1 j2,
      run_prod job_prodready out0 = some j1 ∧
      j1.doc.prod_replicates_done = some 1 ∧
      j1.fs "run.prod1" = some out0.run1a_dat ∧
      j1.fs "run.prod0" = job_prodready.fs "run.prod0" ∧
      run_prod j1 out1 = some j2 ∧
      j2.doc.prod_replicates_done = some 2 ∧
      j2.fs "run.prod2" = some out1.run1a_dat ∧
      j2.fs "run.prod1" = some out0.run1a_dat :=
  run_prod_twice job_prodready out0 out1 ['p'] rfl rfl

/-- A successful production runner increments the replicate counter and
leaves the target replicate count unchanged. -/
theorem run_prod_doc {job : Job} {out : EngineOutput} {j2 : Job}
    (h : run_prod job out = some j2) :
    ∃ n, job.doc.prod_replicates_done = some n ∧
      j2.doc.prod_replicates_done = some (n + 1) ∧
      j2.doc.num_prod_replicates = job.doc.num_prod_replicates := by
  obtain ⟨n, hn, hrs⟩ := run_prod_inv h
  have hd := (run_stage_spec hrs).1
  refine ⟨n, hn, ?_, ?_⟩
  · rw [hd]
  · rw [hd]

/-! ## Claim C5 -/

/-- C5 counterexample: under the workflow engine's real refire rule the
claimed invariant fails.  From a fresh job meeting `run_prod`'s
preconditions, initializing the counters and running production four
times with an engine output whose log lacks "Program ended" leaves
`prod_replicates_done = num_prod_replicates = 4` with `prod_finished`
falsy, so `run_prod` is still eligible; the fifth run pushes the counter
to 5 > 4. -/
theorem prod_counter_overflow :
    ∃ j : Job, Reachable j ∧ j.doc.prod_replicates_done = some 5 ∧
      j.doc.num_prod_replicates = some 4 ∧ ¬ ((5 : Int) ≤ (4 : Int)) := by
  have h1 : run_prod cex1 outbad = some cex2 := rfl
  have h2 : run_prod cex2 outbad = some cex3 := rfl
  have h3 : run_prod cex3 outbad = some cex4 := rfl
  have h4 : run_prod cex4 outbad = some cex5 := rfl
  have h5 : run_prod cex5 outbad = some cex6 := rfl
  have r0 : Reachable cex0 :=
    Reachable.init "a1b2c3" sp_pentane cex0.fs
  have r1 : Reachable cex1 := Reachable.set_prod r0
  have r2 : Reachable cex2 :=
    Reachable.prod outbad r1 rfl rfl rfl (by decide) (by decide) (by decide) h1
  have r3 : Reachable cex3 :=
    Reachable.prod outbad r2 rfl rfl rfl (by decide) (by decide) (by decide) h2
  have r4 : Reachable cex4 :=
    Reachable.prod outbad r3 rfl rfl rfl (by decide) (by decide) (by decide) h3
  have r5 : Reachable cex5 :=
    Reachable.prod outbad r4 rfl rfl rfl (by decide) (by decide) (by decide) h4
  have r6 : Reachable cex6 :=
    Reachable.prod outbad r5 rfl rfl rfl (by decide) (by decide) (by decide) h5
  exact ⟨cex6, r6, rfl, rfl, by decide⟩

/-- C5 (amended): the invariant `prod_replicates_done` at most
`num_prod_replicates` is preserved, and completion can only be reached
with the two fields equal, on every job reachable through the
document-mutating operations when the production runner fires only
while `all_prod_replicates_done` is still false — a conservative
restriction of the workflow engine's refire rule, which re-fires
`run_prod` while not both of its postconditions hold and can therefore
push the counter past the target (see the counterexample). -/
theorem prod_counter_invariant (j : Job) (h : ReachableGated j) :
    (∀ a b : Int, j.doc.prod_replicates_done = some a →
      j.doc.num_prod_replicates = some b → a ≤ b) ∧
    (all_prod_replicates_done j = true →
      ∀ a b : Int, j.doc.prod_replicates_done = some a →
        j.doc.num_prod_replicates = some b → a = b) := by
  have main : ∀ a b : Int, j.doc.prod_replicates_done = some a →
      j.doc.num_prod_replicates = some b → a ≤ b := by
    induction h with
    | init id sp fs =>
        intro a b ha hb
        exact Option.noConfusion ha
    | set_equil hr ih =>
        intro a b ha hb
        exact ih a b ha hb
    | set_prod hr ih =>
        intro a b ha hb
        have ha2 : a = 0 := by simpa [set_prod_replicates] using ha.symm
        have hb2 : b = 4 := by simpa [set_prod_replicates] using hb.symm
        omega
    | ready hr ih =>
        intro a b ha hb
        exact ih a b ha hb
    | melt out hr hrun ih =>
        intro a b ha hb
        have hd := (run_stage_spec hrun).1
        rw [hd] at ha hb
        exact ih a b ha hb
    | cool out hr hrun ih =>
        intro a b ha hb
        have hd := (run_stage_spec hrun).1
        rw [hd] at ha hb
        exact ih a b ha hb
    | equil out hr hrun ih =>
        intro a b ha hb
        have hd := (run_stage_spec hrun).1
        rw [hd] at ha hb
        exact ih a b ha hb
    | prod out hr hgate hrun ih =>
        intro a b ha hb
        obtain ⟨n, hn, hn2, hnum⟩ := run_prod_doc hrun
        rw [hn2] at ha
        rw [hnum] at hb
        have ha2 : a = n + 1 := by simpa using ha.symm
        have hnb : ¬ (n ≥ b) := by
          intro hge
          have htrue := hgate
          unfold all_prod_replicates_done at htrue
          rw [hn, hb] at htrue
          simp at htrue
          omega
        omega
  refine ⟨main, fun hdone a b ha hb => ?_⟩
  have h1 := main a b ha hb
  unfold all_prod_replicates_done at hdone
  rw [ha, hb] at hdone
  simp at hdone
  omega

/-- C5 witness: the amended invariant read off the gated-reachable state
produced by initializing the counters on a fresh job. -/
theorem prod_counter_invariant_witness : (0 : Int) ≤ 4 :=
  (prod_counter_invariant (set_prod_replicates job0)
    (ReachableGated.set_prod (ReachableGated.init "a1b2c3" sp_pentane fs_empty))).1
    0 4 rfl rfl

/-! ## Claim C8 -/

/-- C8 counterexample: a job naming the unknown molecule "benzene" makes
`get_molecules` raise, but the raised error is the dictionary lookup's
`KeyError` naming only the molecule — not an explicitly raised exception
with a message identifying the offending job, contrary to the claim. -/
theorem unknown_molecule_error_not_job_identifying :
    get_molecules c8_job = Except.error (PyError.keyError "benzene") ∧
    ¬ error_identifies_job c8_job (PyError.keyError "benzene") := by
  refine ⟨rfl, ?_⟩
  rintro ⟨msg, hmsg, -⟩
  exact PyError.noConfusion hmsg

/-- C8 amended: an unknown force field name makes `get_system` raise an
explicitly constructed exception whose message names the offending job's
id, while an unknown molecule name makes `get_molecules` raise a
`KeyError` naming the molecule (not the job). -/
theorem config_error_reporting (job : Job) :
    (molecule_dict.lookup job.sp.molecule = none →
      get_molecules job = Except.error (PyError.keyError job.sp.molecule)) ∧
    (∀ m : Molecule, molecule_dict.lookup job.sp.molecule = some (some m) →
      job.sp.forcefield_name ≠ "trappe-ua" →
      job.sp.forcefield_name ≠ "oplsaa" →
      job.sp.forcefield_name ≠ "spce" →
      get_system job = Except.error (PyError.exception
        ("No forcefield has been applied to this system " ++ job.id)) ∧
      error_identifies_job job (PyError.exception
        ("No forcefield has been applied to this system " ++ job.id))) := by
  constructor
  · intro hnone
    unfold get_molecules
    rw [hnone]
  · intro m hm h1 h2 h3
    constructor
    · unfold get_system get_molecules
      rw [hm]
      simp [h1, h2, h3]
      rfl
    · refine ⟨_, rfl, ?_⟩
      rw [containsTok_iff]
      rw [String.data_append]
      exact (List.suffix_append _ _).isInfix

/-- C8 amended witness: a pentane job with an unrecognized force field
name gets the explicit job-identifying exception from `get_system`. -/
theorem config_error_reporting_witness :
    get_system { job0 with sp := { sp_pentane with forcefield_name := "gaff" } } =
      Except.error (PyError.exception
        ("No forcefield has been applied to this system " ++ "a1b2c3")) :=
  ((config_error_reporting
      { job0 with sp := { sp_pentane with forcefield_name := "gaff" } }).2
    Molecule.PentaneUA rfl (by decide) (by decide) (by decide)).1

/-! ## Claim C10 -/

/-- C10: the configured-but-unimplemented molecule names benzeneUA and
ethanolAA are present in the dictionary mapped to Python None, so
`get_molecules` returns `[none]` without raising; the caller `get_system`
therefore receives None as the molecule (observable as its NoneType
attribute error); and the `KeyError` path triggers exactly for names
absent from the dictionary. -/
theorem unimplemented_molecules_yield_none (job : Job) :
    (job.sp.molecule = "benzeneUA" → get_molecules job = Except.ok [none]) ∧
    (job.sp.molecule = "ethanolAA" → get_molecules job = Except.ok [none]) ∧
    (job.sp.molecule = "benzeneUA" →
      get_system job = Except.error (PyError.attributeError
        "NoneType object has no attribute to_parmed")) ∧
    (∀ e, get_molecules job = Except.error e ↔
      (molecule_dict.lookup job.sp.molecule = none ∧
       e = PyError.keyError job.sp.molecule)) := by
  refine ⟨fun h => ?_, fun h => ?_, fun h => ?_, fun e => ?_⟩
  · unfold get_molecules
    rw [h]
    rfl
  · unfold get_molecules
    rw [h]
    rfl
  · unfold get_system get_molecules
    rw [h]
    rfl
  · unfold get_molecules
    rcases hl : molecule_dict.lookup job.sp.molecule with _ | m
    · simp [hl]
      exact eq_comm
    · simp [hl]

/-- C10 witness: the benzeneUA job receives `[none]` from
`get_molecules`, and `get_system` on it sees the None molecule. -/
theorem unimplemented_molecules_yield_none_witness :
    get_molecules job_benzeneUA = Except.ok [none] ∧
    get_molecules job_ethanolAA = Except.ok [none] ∧
    get_system job_benzeneUA = Except.error (PyError.attributeError
      "NoneType object has no attribute to_parmed") :=
  ⟨(unimplemented_molecules_yield_none job_benzeneUA).1 rfl,
   (unimplemented_molecules_yield_none job_ethanolAA).2.1 rfl,
   (unimplemented_molecules_yield_none job_benzeneUA).2.2.1 rfl⟩
